import Mathlib

/-!
Verification development for the `endorsement-distribution` service.

The repository resolves CoSERV queries for attestation endorsement
material: an encoded query is decoded, lookup keys are synthesized from
the tenant and the environment selector, artifacts are fetched from a
key/value store, and the aggregate is re-encoded as a CoSERV result.

This file is a shallow embedding of the Go sources:
- `internal/coserv/coserv.go` (namespace `coserv`): the internal CoSERV
  structures, decoding, key generation and result construction;
- `store/store.go` (namespace `store`): the PostgreSQL-backed store
  (`Get`/`Set`) and the `EndorsementDistributor` resolver with its
  multi-key `GenerateKey` synthesizer;
- `api/handler.go` (namespace `api`): the transport handler
  `CoservRequest` (status selection and content-type negotiation).

Go byte slices are modelled as `List Nat` (one entry per byte), Go
strings as Lean `String`, fallible Go functions as `Except String`.
External collaborators (the PostgreSQL connection, the veraison corim
library, JSON/base64 codecs) are modelled explicitly where their code is
not part of this repository; each such definition carries a doc comment
saying what it models.
-/

namespace EndorsementDistribution

/-- UTF-8 bytes of a string, as Go's `[]byte(s)` conversion.  Restricted
to the ASCII fragment (one byte per character), which covers every string
this code base converts. -/
def asciiBytes (s : String) : List Nat := s.toList.map Char.toNat

/-- Lower-case hexadecimal digit, as used by Go's `fmt` verb `%x`. -/
def hexDigit (n : Nat) : Char :=
  if n < 10 then Char.ofNat (48 + n) else Char.ofNat (87 + n)

/-- Two-digit lower-case hexadecimal rendering of one byte (`%x` prints
every byte of a `[]byte` as exactly two digits). -/
def hexByte (b : Nat) : String :=
  String.mk [hexDigit (b / 16 % 16), hexDigit (b % 16)]

/-- Go's `fmt.Sprintf("%x", data)` on a byte slice: concatenation of the
two-digit hex renderings of the bytes. -/
def hexEncode (bs : List Nat) : String := String.join (bs.map hexByte)

namespace coserv

/-- Struct `ClassSelector` of `internal/coserv/coserv.go`: holds the raw
class-id bytes (field 0). -/
structure ClassSelector where
  ClassID : List Nat
deriving DecidableEq, Repr

/-- Struct `InstanceSelector` of `internal/coserv/coserv.go`: holds the raw
instance-id bytes (field 1). -/
structure InstanceSelector where
  InstanceID : List Nat
deriving DecidableEq, Repr

/-- Struct `EnvironmentSelector` of `internal/coserv/coserv.go`: field 0 is the
class-selector sequence, field 1 the instance-selector sequence. -/
structure EnvironmentSelector where
  Class : List ClassSelector
  Instance : List InstanceSelector
deriving DecidableEq, Repr

/-- Struct `QueryObject` of `internal/coserv/coserv.go`: field 0 is the
artifact-type integer, field 1 the environment selector. -/
structure QueryObject where
  ArtifactType : Int
  EnvironmentSelector : EnvironmentSelector
deriving DecidableEq, Repr

/-- Struct `CoSERV` of `internal/coserv/coserv.go`: field 0 is the profile
string, field 1 the query object. -/
structure CoSERV where
  Profile : String
  Query : QueryObject
deriving DecidableEq, Repr

/-- The zero value of the Go `CoSERV` struct, as produced by
`var coserv coserv.CoSERV` before decoding. -/
def zeroCoSERV : CoSERV :=
  { Profile := ""
    Query := { ArtifactType := 0
               EnvironmentSelector := { Class := [], Instance := [] } } }

/-- A generic parsed JSON document, the image of Go's `encoding/json`
generic decoding (`map[string]interface{}` / `[]interface{}` / `string`
/ `float64` / `bool` / `nil`).  JSON numbers are modelled as integers,
which covers every number this code base inspects. -/
inductive Json where
  | null
  | bool (b : Bool)
  | num (n : Int)
  | str (s : String)
  | arr (elems : List Json)
  | obj (fields : List (String × Json))

/-- Lookup in a JSON object as in a Go `map[string]interface{}` built by
`json.Unmarshal`: on duplicate keys the last occurrence wins. -/
def jlookup (fields : List (String × Json)) (k : String) : Option Json :=
  ((fields.filter (fun f => f.1 == k)).map (fun f => f.2)).getLast?

/-- Method `(*CoSERV).FromCBOR` of `internal/coserv/coserv.go`.  The argument
`parsed` is the outcome of `json.Unmarshal(data, &temp)` with
`temp : map[string]interface{}`: `none` when the bytes are not valid
JSON or their top-level value is neither an object nor `null` (the two
shapes that unmarshal into a Go map without error; `null` leaves the map
`nil`).  On success the method copies field "0" into `Profile` when it
is a string and field "1"/"0" into `Query.ArtifactType` when it is a
number, ignoring everything else (the environment selector included),
and returns no error. -/
def FromCBOR (c : CoSERV) (parsed : Option Json) : Except String CoSERV :=
  match parsed with
  | some Json.null => Except.ok c
  | some (Json.obj fields) =>
      let c1 := match jlookup fields "0" with
        | some (Json.str profile) => { c with Profile := profile }
        | _ => c
      let c2 := match jlookup fields "1" with
        | some (Json.obj queryData) =>
            match jlookup queryData "0" with
            | some (Json.num artifactType) =>
                { c1 with Query := { c1.Query with ArtifactType := artifactType } }
            | _ => c1
        | _ => c1
      Except.ok c2
  | _ => Except.error "failed to parse CoSERV data"

/-- The character normalization step of `FromBase64Url`: the two
`strings.ReplaceAll` calls mapping the URL-safe alphabet (`-`, `_`) to
the standard one (`+`, `/`). -/
def normalizeBase64 (s : String) : String :=
  String.map (fun ch => if ch = '-' then '+' else if ch = '_' then '/' else ch) s

/-- The re-padding loop of `FromBase64Url`: append `=` until the length
is a multiple of 4. -/
def padBase64 (s : String) : String :=
  s ++ String.mk (List.replicate ((4 - s.length % 4) % 4) '=')

/-- Method `(*CoSERV).FromBase64Url` of `internal/coserv/coserv.go`, with the
two external codecs passed explicitly: `b64decode` models
`base64.StdEncoding.DecodeString` (error carries the library message)
and `jsonParse` models the generic JSON decoding consumed by
`FromCBOR`.  The method normalizes the URL-safe alphabet, re-pads,
base64-decodes (wrapping a failure as `failed to decode base64: …`) and
hands the bytes to `FromCBOR`. -/
def FromBase64Url (b64decode : String → Except String (List Nat))
    (jsonParse : List Nat → Option Json) (c : CoSERV) (encoded : String) :
    Except String CoSERV :=
  match b64decode (padBase64 (normalizeBase64 encoded)) with
  | Except.error e => Except.error ("failed to decode base64: " ++ e)
  | Except.ok data => FromCBOR c (jsonParse data)

/-- Method `(*CoSERV).GetProfile` of `internal/coserv/coserv.go`: fails exactly
when the profile string is empty. -/
def GetProfile (c : CoSERV) : Except String String :=
  if c.Profile = "" then Except.error "profile not found in CoSERV query"
  else Except.ok c.Profile

/-- Method `(*EnvironmentSelector).hash` of `internal/coserv/coserv.go`: the
class-id bytes of the first class selector if any, else the instance-id
bytes of the first instance selector if any, else the bytes of the
literal string `default`. -/
def hash (es : EnvironmentSelector) : List Nat :=
  match es.Class with
  | c :: _ => c.ClassID
  | [] =>
      match es.Instance with
      | i :: _ => i.InstanceID
      | [] => asciiBytes "default"

/-- Method `(*CoSERV).GenerateKey` of `internal/coserv/coserv.go`: requires a
non-empty profile (via `GetProfile`) and renders
`coserv://<tenant>/<profile>/<artifact-type>/<hex of selector hash>`. -/
def GenerateKey (c : CoSERV) (tenantID : String) : Except String String :=
  match GetProfile c with
  | Except.error e => Except.error e
  | Except.ok profile =>
      Except.ok ("coserv://" ++ tenantID ++ "/" ++ profile ++ "/"
        ++ toString c.Query.ArtifactType ++ "/"
        ++ hexEncode (hash c.Query.EnvironmentSelector))

/-- Struct `Artifact` of `internal/coserv/coserv.go`: field 0 is the raw
bytes. -/
structure Artifact where
  Data : List Nat
deriving DecidableEq, Repr

/-- Struct `ResultObject` of `internal/coserv/coserv.go`: field 0 is the
artifact type, field 1 the artifact sequence. -/
structure ResultObject where
  ArtifactType : Int
  Artifacts : List Artifact
deriving DecidableEq, Repr

/-- Struct `CoSERVResult` of `internal/coserv/coserv.go`: field 0 is the
profile, field 1 the result object. -/
structure CoSERVResult where
  Profile : String
  Result : ResultObject
deriving DecidableEq, Repr

/-- Function `CreateResult` of `internal/coserv/coserv.go`: builds the result
envelope, wrapping each raw artifact byte string as an `Artifact`
(`make` plus index-preserving loop is a map). -/
def CreateResult (profile : String) (artifactType : Int)
    (artifacts : List (List Nat)) : CoSERVResult :=
  { Profile := profile
    Result := { ArtifactType := artifactType
                Artifacts := artifacts.map (fun a => { Data := a }) } }

end coserv

namespace store

/-- Standard base64 alphabet character, as in Go's
`base64.StdEncoding`. -/
def b64Char (n : Nat) : Char :=
  if n < 26 then Char.ofNat (65 + n)
  else if n < 52 then Char.ofNat (97 + (n - 26))
  else if n < 62 then Char.ofNat (48 + (n - 52))
  else if n = 62 then '+' else '/'

/-- Go's `base64.StdEncoding.EncodeToString`: three input bytes become
four alphabet characters; a trailing group of one or two bytes is padded
with `=`. -/
def base64StdEncode : List Nat → String
  | [] => ""
  | [b0] => String.mk [b64Char (b0 / 4), b64Char (b0 % 4 * 16), '=', '=']
  | [b0, b1] => String.mk [b64Char (b0 / 4), b64Char (b0 % 4 * 16 + b1 / 16),
      b64Char (b1 % 16 * 4), '=']
  | b0 :: b1 :: b2 :: rest =>
      String.mk [b64Char (b0 / 4), b64Char (b0 % 4 * 16 + b1 / 16),
        b64Char (b1 % 16 * 4 + b2 / 64), b64Char (b2 % 64)]
      ++ base64StdEncode rest

/-- Modelled from the spec: the implementation identifier the corim
library extracts from a class-id ("identifies a device class");
`Str` is the fixed textual rendering returned by the library's
`String()` method, which is what `extractImplID` places in the key. -/
structure ImplID where
  Str : String
deriving DecidableEq, Repr

/-- Modelled from the spec: the class-id structure of the corim library;
`GetImplID` either yields the implementation identifier or fails with
the library's error message ("extraction fails if the class identifier
is absent or malformed"). -/
structure ClassID where
  GetImplID : Except String ImplID
deriving Repr

/-- Modelled from the spec: `comid.Class`, the class selector wrapping
an optional class-id ("wraps a class identifier structure from which an
implementation-identifier string can be extracted"). -/
structure Class where
  ClassID : Option ClassID
deriving Repr

/-- Modelled from the spec: `comid.Instance`, the instance selector;
`GetUEID` either yields the unique entity identifier byte string or
fails with the library's error message. -/
structure Instance where
  GetUEID : Except String (List Nat)
deriving Repr

/-- Modelled from the spec: the artifact-type tags of the corim coserv
library — "the three artifact-type categories; only the first two are
supported by this core". -/
inductive ArtifactType where
  | referenceValues
  | trustAnchors
  | endorsedValues
deriving DecidableEq, Repr

/-- Modelled from the spec: the environment selector of the corim
coserv library; the Go fields are pointers to slices
(`*[]comid.Class` / `*[]comid.Instance`), hence the `Option`. -/
structure EnvironmentSelector where
  Classes : Option (List Class)
  Instances : Option (List Instance)
deriving Repr

/-- Modelled from the spec: the query part of the corim coserv library
query (artifact type plus environment selector). -/
structure Query where
  ArtifactType : ArtifactType
  EnvironmentSelector : EnvironmentSelector
deriving Repr

/-- Modelled from the spec: `coserv.Coserv`, the decoded query of the
corim coserv library (profile, artifact type, environment selector). -/
structure Coserv where
  Profile : String
  Query : Query
deriving Repr

/-- Modelled from the spec: the scheme name constant referenced by
`GenerateKey` ("scheme identifier constant"; its Go declaration is not
among the provided sources).  The concrete value is irrelevant to every
property proved below. -/
def SchemeName : String := "CCA_SSD_PLATFORM"

/-- Modelled from the spec: `arm.RefValLookupKey` — "LookupKey: a
deterministic string computed from (scheme name constant, tenant
identifier, extracted identifier)". -/
def RefValLookupKey (scheme tenantID implID : String) : String :=
  scheme ++ "://" ++ tenantID ++ "/" ++ implID

/-- Modelled from the spec: `arm.TaCoservLookupKey` — the trust-anchor
counterpart of `RefValLookupKey`, keyed by the rendered instance
identifier. -/
def TaCoservLookupKey (scheme tenantID instID : String) : String :=
  scheme ++ "://ta/" ++ tenantID ++ "/" ++ instID

/-- Function `extractImplID` of `store/store.go`: fails with `missing class-id`
when the class selector has no class-id, otherwise extracts the
implementation identifier (wrapping a library failure) and renders it
with `String()`. -/
def extractImplID (c : Class) : Except String String :=
  match c.ClassID with
  | none => Except.error "missing class-id"
  | some classID =>
      match classID.GetImplID with
      | Except.error e =>
          Except.error ("could not extract implementation-id from class-id: " ++ e)
      | Except.ok implID => Except.ok implID.Str

/-- Function `extractInstID` of `store/store.go`: extracts the UEID (wrapping a
library failure; the source's message says `implementation-id` even for
instances) and renders it in standard base64. -/
def extractInstID (i : Instance) : Except String String :=
  match i.GetUEID with
  | Except.error e =>
      Except.error ("could not extract implementation-id from instance-id: " ++ e)
  | Except.ok instID => Except.ok (base64StdEncode instID)

/-- The `ReferenceValues` loop body of `GenerateKey` in
`store/store.go`: walk the class selectors in order (the `Nat` argument
is the running index `i` of the `range` loop), stop at the first failing
extraction with `creating lookup key for class[i]: …`, and append one
`RefValLookupKey` per selector. -/
def genRefValKeys (tenantID : String) : Nat → List Class → Except String (List String)
  | _, [] => Except.ok []
  | i, c :: rest =>
      match extractImplID c with
      | Except.error e =>
          Except.error ("creating lookup key for class[" ++ toString i ++ "]: " ++ e)
      | Except.ok implID =>
          match genRefValKeys tenantID (i + 1) rest with
          | Except.error e => Except.error e
          | Except.ok keys =>
              Except.ok (RefValLookupKey SchemeName tenantID implID :: keys)

/-- The `TrustAnchors` loop body of `GenerateKey` in `store/store.go`,
symmetric to `genRefValKeys` with `creating lookup key for
instance[i]: …` and `TaCoservLookupKey`. -/
def genTrustAnchorKeys (tenantID : String) : Nat → List Instance → Except String (List String)
  | _, [] => Except.ok []
  | i, ins :: rest =>
      match extractInstID ins with
      | Except.error e =>
          Except.error ("creating lookup key for instance[" ++ toString i ++ "]: " ++ e)
      | Except.ok instID =>
          match genTrustAnchorKeys tenantID (i + 1) rest with
          | Except.error e => Except.error e
          | Except.ok keys =>
              Except.ok (TaCoservLookupKey SchemeName tenantID instID :: keys)

/-- The `switch q.Query.ArtifactType` body of `GenerateKey` in
`store/store.go`, applied to an already-parsed query: reference values
walk `Classes` (a `nil` pointer yields the untouched empty key list),
trust anchors walk `Instances`, endorsed values fail immediately. -/
def GenerateKeyQ (tenantID : String) (q : Coserv) : Except String (List String) :=
  match q.Query.ArtifactType with
  | ArtifactType.referenceValues =>
      match q.Query.EnvironmentSelector.Classes with
      | none => Except.ok []
      | some cs => genRefValKeys tenantID 0 cs
  | ArtifactType.trustAnchors =>
      match q.Query.EnvironmentSelector.Instances with
      | none => Except.ok []
      | some ins => genTrustAnchorKeys tenantID 0 ins
  | ArtifactType.endorsedValues =>
      Except.error "CCA does not implement endorsed value queries"

/-- Function `GenerateKey` of `store/store.go`: parses the encoded query with the
corim library (the parse outcome is the `pq` argument, since the
library's decoder is external to this repository) and synthesizes the
key list with `GenerateKeyQ`; a parse failure is returned unchanged. -/
def GenerateKey (tenantID : String) (pq : Except String Coserv) : Except String (List String) :=
  match pq with
  | Except.error e => Except.error e
  | Except.ok q => GenerateKeyQ tenantID q

/-- Modelled from the spec: the `GetProfile()` call in
`GetEndorsements` of `store/store.go`, whose declaration is not among
the provided sources.  Per the spec the resolver extracts the profile
from the original query and a query with an absent/empty profile is
invalid; this mirrors the internal package's `GetProfile`. -/
def GetProfile (q : Coserv) : Except String String :=
  if q.Profile = "" then Except.error "profile not found in CoSERV query"
  else Except.ok q.Profile

/-- Modelled from the spec: the result envelope built by the corim
library's `CreateResult` — "field 0 = profile, field 1 = { field 0 =
artifactType, field 1 = artifact sequence }". -/
structure CoservResult where
  Profile : String
  ArtifactType : ArtifactType
  Artifacts : List (List Nat)
deriving DecidableEq, Repr

/-- Modelled from the spec: `CreateResult` as called by
`GetEndorsements` in `store/store.go` — packages profile, artifact type
and the fetched artifact sequence into the result envelope. -/
def CreateResult (profile : String) (artifactType : ArtifactType)
    (artifacts : List (List Nat)) : CoservResult :=
  { Profile := profile, ArtifactType := artifactType, Artifacts := artifacts }

/-- Method `(*EndorsementDistributor).GetEndorsements` of `store/store.go`.
`pq` is the outcome of the corim-library parse of the encoded query
(the source parses the same string twice — once directly and once
inside `GenerateKey` — with the same deterministic result, so the model
parses once).  `get` is the injected store's `Get`; the source passes
the ENTIRE synthesized key list to the single `ed.store.Get(key)` call,
so `get` consumes the key list.  The final `ToCBOR` serialization is
modelled as the successful identity on the result envelope.  Note there
is no special case for an empty key list: the store fetch is always
issued and any store error aborts the resolution. -/
def GetEndorsements (get : List String → Except String (List (List Nat)))
    (tenantID : String) (pq : Except String Coserv) : Except String CoservResult :=
  match pq with
  | Except.error e => Except.error ("failed to parse CoSERV query: " ++ e)
  | Except.ok q =>
      match GenerateKey tenantID (Except.ok q) with
      | Except.error e => Except.error ("failed to generate key: " ++ e)
      | Except.ok keys =>
          match get keys with
          | Except.error e => Except.error ("failed to get artifacts: " ++ e)
          | Except.ok artifacts =>
              match GetProfile q with
              | Except.error e => Except.error ("failed to get profile: " ++ e)
              | Except.ok profile =>
                  Except.ok (CreateResult profile q.Query.ArtifactType artifacts)

/-- Method `(*PostgresStore).encodeArtifact` of `store/store.go`:
`fmt.Sprintf("%x", data)` — lower-case hex, despite the comment
announcing base64. -/
def encodeArtifact (data : List Nat) : String := hexEncode data

/-- Method `(*PostgresStore).decodeArtifact` of `store/store.go`:
`[]byte(encoded)` — the raw bytes of the stored string, despite the
comment announcing hex decoding; it never fails. -/
def decodeArtifact (encoded : String) : List Nat := asciiBytes encoded

/-- The `endorsements` table, one row per `(kv_key, kv_val)` pair in
row order.  `kv_val` is text holding the JSON serialization of a list
of artifact strings; since `json.Marshal`/`json.Unmarshal` round-trip a
`[]string`, the model stores the string list itself. -/
def Table : Type := List (String × List String)

/-- Method `(*PostgresStore).Set` of `store/store.go`: inside one transaction,
delete every row with the key, then insert a single row whose value is
the encoded artifact list. -/
def Set (table : List (String × List String)) (key : String)
    (artifacts : List (List Nat)) : List (String × List String) :=
  (table.filter (fun row => row.1 != key)) ++ [(key, artifacts.map encodeArtifact)]

/-- Method `(*PostgresStore).Get` of `store/store.go`: select all rows with
the key (in store order), decode each row's artifact strings with
`decodeArtifact`, concatenate, and fail with `no artifacts found for
key: …` when the combined list is empty. -/
def Get (table : List (String × List String)) (key : String) :
    Except String (List (List Nat)) :=
  let artifacts :=
    ((table.filter (fun row => row.1 == key)).map (fun row => row.2.map decodeArtifact)).flatten
  if artifacts.isEmpty then Except.error ("no artifacts found for key: " ++ key)
  else Except.ok artifacts

end store

namespace api

/-- A Go `error` value with explicit allocation identity: `new` models
`errors.New` (a fresh `*errorString`; two values are the same Go
interface value exactly when they come from the same allocation, i.e.
share the `id`), and `wrap` models `fmt.Errorf("…: %w", inner)`. -/
inductive GoError where
  | new (id : Nat) (msg : String)
  | wrap (id : Nat) (msg : String) (inner : GoError)
deriving DecidableEq, Repr

/-- The allocation identities occurring in an error chain. -/
def GoError.ids : GoError → List Nat
  | GoError.new i _ => [i]
  | GoError.wrap i _ inner => i :: inner.ids

/-- The rendered message (`err.Error()`): `%w` wrapping concatenates
`prefix: inner`. -/
def GoError.Error : GoError → String
  | GoError.new _ msg => msg
  | GoError.wrap _ msg inner => msg ++ ": " ++ inner.Error

/-- Go's `errors.Is` for chains built from `errors.New` and
`fmt.Errorf("…: %w", …)`: compare each link of the chain with the
target for interface identity (same allocation), unwrapping on
failure. -/
def errorsIs : GoError → GoError → Bool
  | e@(GoError.new _ _), target => e == target
  | e@(GoError.wrap _ _ inner), target => e == target || errorsIs inner target

/-- Constant `EdApiMediaType` of `api/handler.go`. -/
def EdApiMediaType : String := "application/coserv+cbor"

/-- The `tenantID` constant of `api/handler.go`. -/
def tenantID : String := "0"

/-- Whether a character list starts with another (Go's
`strings.HasPrefix` on the underlying text). -/
def leadsWith : List Char → List Char → Bool
  | _, [] => true
  | [], _ :: _ => false
  | a :: as, b :: bs => a == b && leadsWith as bs

/-- Whether a character list contains another as a contiguous
subsequence (Go's `strings.Contains` on the underlying text). -/
def containsSeq : List Char → List Char → Bool
  | [], sub => sub.isEmpty
  | s :: rest, sub => leadsWith (s :: rest) sub || containsSeq rest sub

/-- Go's `strings.Split` at a one-character separator. -/
def splitOnChar (sep : Char) : List Char → List (List Char)
  | [] => [[]]
  | c :: rest =>
      let r := splitOnChar sep rest
      if c == sep then [] :: r
      else
        match r with
        | h :: t => (c :: h) :: t
        | [] => [[c]]

/-- Go's `strings.TrimSpace` (ASCII whitespace). -/
def trimChars (cs : List Char) : List Char :=
  ((cs.dropWhile Char.isWhitespace).reverse.dropWhile Char.isWhitespace).reverse

/-- Go's `%q` rendering of a string: surrounding double quotes with
quote and backslash escaped (the full verb also escapes control and
non-printable characters, which do not occur in profile strings). -/
def goQuote (s : String) : String :=
  "\x22" ++ String.join (s.toList.map (fun c =>
    if c = '\x22' then "\\\x22" else if c = '\\' then "\\\\" else String.mk [c])) ++ "\x22"

/-- Go's `strings.Trim(s, "\x22")`: strip leading and trailing double
quotes. -/
def trimQuotes (cs : List Char) : List Char :=
  ((cs.dropWhile (fun c => c = '\x22')).reverse.dropWhile (fun c => c = '\x22')).reverse

/-- The header-scanning loop of `CoservRequest` in `api/handler.go`:
the first `;`-separated part whose `TrimSpace` starts with `profile=`
(the loop `break`s at the first hit). -/
def findProfilePart : List (List Char) → Option (List Char)
  | [] => none
  | p :: rest =>
      let q := trimChars p
      if leadsWith q ("profile=".toList) then some q else findProfilePart rest

/-- The `mediaType` computation of `CoservRequest` in `api/handler.go`:
starts from `EdApiMediaType`; when the Accept header contains
`profile=`, the first matching part (quotes trimmed, the 8-byte
`profile=` head dropped — Go slices bytes, which coincides with
characters on the ASCII headers in use) is echoed as
`…; profile="<profile>"`. -/
def computeMediaType (acceptHeader : String) : String :=
  if containsSeq acceptHeader.toList ("profile=".toList) then
    match findProfilePart (splitOnChar ';' acceptHeader.toList) with
    | some part =>
        EdApiMediaType ++ "; profile="
          ++ goQuote (String.mk (trimQuotes (part.drop 8)))
    | none => EdApiMediaType
  else EdApiMediaType

/-- The status selection of the error branch of `CoservRequest` in
`api/handler.go`: start from `http.StatusBadRequest` and upgrade to
`http.StatusNotFound` only when
`errors.Is(err, errors.New("no artifacts found"))` holds; `freshID` is
the allocation identity of the `errors.New` value created at that very
comparison, which Go guarantees differs from every identity inside
`err`. -/
def coservRequestStatus (err : GoError) (freshID : Nat) : Nat :=
  if errorsIs err (GoError.new freshID "no artifacts found") then 404 else 400

/-- An HTTP response as produced by the handler: status code, the
content type passed to `c.Data`/`c.Header`, and the body bytes (for
problem responses the RFC7807 JSON wrapper is abstracted to the detail
string's bytes). -/
structure HttpResponse where
  status : Nat
  contentType : String
  body : List Nat
deriving DecidableEq, Repr

/-- Method `(*Handler).CoservRequest` of `api/handler.go`.  `negotiationOK`
models `c.NegotiateFormat(EdApiMediaType) == EdApiMediaType` (gin
internals), `getEndorsements` is the injected distributor taking
(tenant, query, media type), and `freshID` the allocation identity of
the handler's `errors.New` (see `coservRequestStatus`).  On success the
body is served with `c.Data(http.StatusOK, EdApiMediaType, res)` — the
CONSTANT media type; the computed `mediaType` is only passed to
`getEndorsements` and logged. -/
def CoservRequest (negotiationOK : Bool) (acceptHeader coservQuery : String)
    (getEndorsements : String → String → String → Except GoError (List Nat))
    (freshID : Nat) : HttpResponse :=
  if negotiationOK = false then
    { status := 406, contentType := "application/problem+json",
      body := asciiBytes ("the only supported output format is " ++ EdApiMediaType) }
  else if coservQuery = "" then
    { status := 400, contentType := "application/problem+json",
      body := asciiBytes "missing query parameter" }
  else
    let mediaType := computeMediaType acceptHeader
    match getEndorsements tenantID coservQuery mediaType with
    | Except.error err =>
        { status := coservRequestStatus err freshID,
          contentType := "application/problem+json",
          body := asciiBytes err.Error }
    | Except.ok res =>
        { status := 200, contentType := EdApiMediaType, body := res }

end api

/-! ## Helper lemmas -/

/-- The selector hash is the first class selector's class-id whenever
the class list is non-empty. -/
theorem hash_of_class_head (es : coserv.EnvironmentSelector) (c : coserv.ClassSelector)
    (h : es.Class.head? = some c) : coserv.hash es = c.ClassID := by
  obtain ⟨cls, ins⟩ := es
  cases cls with
  | nil => simp at h
  | cons a r =>
      simp only [List.head?_cons, Option.some.injEq] at h
      subst h
      rfl

/-- The selector hash is the first instance selector's instance-id
whenever the class list is empty and the instance list is not. -/
theorem hash_of_instance_head (es : coserv.EnvironmentSelector) (i : coserv.InstanceSelector)
    (hc : es.Class = []) (h : es.Instance.head? = some i) :
    coserv.hash es = i.InstanceID := by
  obtain ⟨cls, ins⟩ := es
  subst hc
  cases ins with
  | nil => simp at h
  | cons a r =>
      simp only [List.head?_cons, Option.some.injEq] at h
      subst h
      rfl

/-- The selector hash falls back to the bytes of `default` when both
selector lists are empty. -/
theorem hash_default (es : coserv.EnvironmentSelector)
    (hc : es.Class = []) (hi : es.Instance = []) :
    coserv.hash es = asciiBytes "default" := by
  obtain ⟨cls, ins⟩ := es
  subst hc
  subst hi
  rfl

/-- Lemma: `GenerateKey` on a non-empty profile renders the four-component
key. -/
theorem GenerateKey_ok (c : coserv.CoSERV) (tenant : String) (h : c.Profile ≠ "") :
    coserv.GenerateKey c tenant =
      Except.ok ("coserv://" ++ tenant ++ "/" ++ c.Profile ++ "/"
        ++ toString c.Query.ArtifactType ++ "/"
        ++ hexEncode (coserv.hash c.Query.EnvironmentSelector)) := by
  simp [coserv.GenerateKey, coserv.GetProfile, h]

/-! ## Claim theorems -/

/-- C8: for every profile string, artifact-type value and artifact
byte-string list, `CreateResult` totally builds a result whose field 0
is the given profile and whose field 1 holds the given artifact type
plus an artifact sequence of the same length and order as the input,
each artifact wrapped as an object whose field 0 is the raw bytes. -/
theorem CreateResult_shape (profile : String) (artifactType : Int)
    (artifacts : List (List Nat)) :
    (coserv.CreateResult profile artifactType artifacts).Profile = profile ∧
    (coserv.CreateResult profile artifactType artifacts).Result.ArtifactType = artifactType ∧
    (coserv.CreateResult profile artifactType artifacts).Result.Artifacts.length
      = artifacts.length ∧
    ∀ i : Nat,
      ((coserv.CreateResult profile artifactType artifacts).Result.Artifacts[i]?).map
        coserv.Artifact.Data = artifacts[i]? := by
  refine ⟨rfl, rfl, by simp [coserv.CreateResult], ?_⟩
  intro i
  simp only [coserv.CreateResult, List.getElem?_map, Option.map_map]
  cases artifacts[i]? <;> rfl

/-- C10: in the internal `coserv.CoSERV.GenerateKey`, the lookup key
depends only on the first environment-selector entry: for every tenant,
two queries with equal (non-empty) profile, equal artifact type and
equal first class selector — respectively, empty class lists and equal
first instance selector — generate identical keys whatever their
remaining selector entries; and when both selector lists are empty, key
generation still succeeds with the hex of the constant byte string
`default` as the selector-hash component. -/
theorem GenerateKey_first_entry_only (tenant : String) (q1 q2 : coserv.CoSERV)
    (hp : q1.Profile = q2.Profile) (hne : q1.Profile ≠ "")
    (ht : q1.Query.ArtifactType = q2.Query.ArtifactType) :
    (∀ c : coserv.ClassSelector,
      q1.Query.EnvironmentSelector.Class.head? = some c →
      q2.Query.EnvironmentSelector.Class.head? = some c →
      coserv.GenerateKey q1 tenant = coserv.GenerateKey q2 tenant) ∧
    (∀ i : coserv.InstanceSelector,
      q1.Query.EnvironmentSelector.Class = [] →
      q2.Query.EnvironmentSelector.Class = [] →
      q1.Query.EnvironmentSelector.Instance.head? = some i →
      q2.Query.EnvironmentSelector.Instance.head? = some i →
      coserv.GenerateKey q1 tenant = coserv.GenerateKey q2 tenant) ∧
    (q1.Query.EnvironmentSelector.Class = [] →
     q1.Query.EnvironmentSelector.Instance = [] →
     coserv.GenerateKey q1 tenant =
       Except.ok ("coserv://" ++ tenant ++ "/" ++ q1.Profile ++ "/"
         ++ toString q1.Query.ArtifactType ++ "/" ++ "64656661756c74")) := by
  have hne2 : q2.Profile ≠ "" := hp ▸ hne
  refine ⟨?_, ?_, ?_⟩
  · intro c h1 h2
    rw [GenerateKey_ok q1 tenant hne, GenerateKey_ok q2 tenant hne2,
      hash_of_class_head _ c h1, hash_of_class_head _ c h2, hp, ht]
  · intro i hc1 hc2 h1 h2
    rw [GenerateKey_ok q1 tenant hne, GenerateKey_ok q2 tenant hne2,
      hash_of_instance_head _ i hc1 h1, hash_of_instance_head _ i hc2 h2, hp, ht]
  · intro hc hi
    rw [GenerateKey_ok q1 tenant hne, hash_default _ hc hi]
    have : hexEncode (asciiBytes "default") = "64656661756c74" := by decide
    rw [this]

/-- Witness for C10: two concrete queries sharing profile `P`, artifact
type 2 and first class selector `[1]` but differing in the remaining
selector entries generate the same key. -/
theorem GenerateKey_first_entry_only_witness :
    coserv.GenerateKey
        { Profile := "P",
          Query := { ArtifactType := 2,
                     EnvironmentSelector :=
                       { Class := [{ ClassID := [1] }, { ClassID := [2] }],
                         Instance := [] } } } "t0" =
      coserv.GenerateKey
        { Profile := "P",
          Query := { ArtifactType := 2,
                     EnvironmentSelector :=
                       { Class := [{ ClassID := [1] }],
                         Instance := [{ InstanceID := [9] }] } } } "t0" :=
  (GenerateKey_first_entry_only "t0" _ _ rfl (by decide) rfl).1 { ClassID := [1] } rfl rfl

/-- A concrete decoded query document with all three parts present:
field 0 = profile `P`, field 1/0 = artifact type 2 and field 1/1 = an
environment selector carrying one class selector (field 0) and an empty
instance sequence (field 1). -/
def fullQueryDoc : coserv.Json :=
  coserv.Json.obj
    [("0", coserv.Json.str "P"),
     ("1", coserv.Json.obj
       [("0", coserv.Json.num 2),
        ("1", coserv.Json.obj
          [("0", coserv.Json.arr [coserv.Json.obj [("0", coserv.Json.str "7f45")]]),
           ("1", coserv.Json.arr [])])])]

/-- C4 counterexample: decoding `fullQueryDoc` — whose field 1/1 holds
one class selector — yields the profile and the artifact type but an
EMPTY environment selector: field 1/1 is never read, refuting the claim
that it populates the class-selector and instance-selector sequences. -/
theorem FromCBOR_selector_cex :
    coserv.FromCBOR coserv.zeroCoSERV (some fullQueryDoc) =
      Except.ok { Profile := "P",
                  Query := { ArtifactType := 2,
                             EnvironmentSelector := { Class := [], Instance := [] } } } ∧
    coserv.FromCBOR coserv.zeroCoSERV (some fullQueryDoc) ≠
      Except.ok { Profile := "P",
                  Query := { ArtifactType := 2,
                             EnvironmentSelector :=
                               { Class := [{ ClassID := asciiBytes "7f45" }],
                                 Instance := [] } } } := by
  refine ⟨rfl, ?_⟩
  intro h
  simp [coserv.FromCBOR, fullQueryDoc, coserv.jlookup, coserv.zeroCoSERV] at h

/-- C4 amended: `FromCBOR` succeeds on every JSON object, copying
field 0 into the profile when it is a string and field 1/field 0 into
the artifact-type integer when it is a number; the environment selector
is never populated — it keeps whatever value the receiver held before
decoding (the empty selector of the zero value). -/
theorem FromCBOR_profile_and_type (c : coserv.CoSERV)
    (fields : List (String × coserv.Json)) :
    ∃ r, coserv.FromCBOR c (some (coserv.Json.obj fields)) = Except.ok r ∧
      r.Query.EnvironmentSelector = c.Query.EnvironmentSelector ∧
      (∀ p, coserv.jlookup fields "0" = some (coserv.Json.str p) → r.Profile = p) ∧
      (∀ qf n, coserv.jlookup fields "1" = some (coserv.Json.obj qf) →
        coserv.jlookup qf "0" = some (coserv.Json.num n) →
        r.Query.ArtifactType = n) := by
  obtain ⟨P, AT, ES⟩ := c
  refine ⟨_, rfl, ?_, ?_, ?_⟩
  · simp only [coserv.FromCBOR]
    repeat' split
    all_goals rfl
  · intro p h0
    simp only [coserv.FromCBOR, h0]
    repeat' split
    all_goals rfl
  · intro qf n h1 h10
    simp only [coserv.FromCBOR, h1, h10]

/-- Witness for C4's amended theorem: decoding `fullQueryDoc` from the
zero value parses profile `P` and artifact type 2 while the selector
stays empty. -/
theorem FromCBOR_profile_and_type_witness :
    ∃ r, coserv.FromCBOR coserv.zeroCoSERV
        (some (coserv.Json.obj
          [("0", coserv.Json.str "Q"), ("1", coserv.Json.obj [("0", coserv.Json.num 7)])]))
        = Except.ok r ∧
      r.Query.EnvironmentSelector = coserv.zeroCoSERV.Query.EnvironmentSelector ∧
      (∀ p, coserv.jlookup
          [("0", coserv.Json.str "Q"), ("1", coserv.Json.obj [("0", coserv.Json.num 7)])]
          "0" = some (coserv.Json.str p) → r.Profile = p) ∧
      (∀ qf n, coserv.jlookup
          [("0", coserv.Json.str "Q"), ("1", coserv.Json.obj [("0", coserv.Json.num 7)])]
          "1" = some (coserv.Json.obj qf) →
        coserv.jlookup qf "0" = some (coserv.Json.num n) →
        r.Query.ArtifactType = n) :=
  FromCBOR_profile_and_type coserv.zeroCoSERV
    [("0", coserv.Json.str "Q"), ("1", coserv.Json.obj [("0", coserv.Json.num 7)])]

/-- C5 counterexample: a full decode (base64 step succeeding with the
bytes of `\x7b\x7d`, i.e. the empty JSON object, exactly as the real
codecs behave on the encoded input `e30`) SUCCEEDS and leaves the
profile empty — decode itself does not reject an absent/empty profile,
refuting the missing-profile part of the claim. -/
theorem FromBase64Url_empty_profile_cex :
    coserv.FromBase64Url (fun _ => Except.ok (asciiBytes "\x7b\x7d"))
        (fun _ => some (coserv.Json.obj [])) coserv.zeroCoSERV "e30" =
      Except.ok coserv.zeroCoSERV ∧
    coserv.zeroCoSERV.Profile = "" :=
  ⟨rfl, rfl⟩

/-- C5 amended: decode fails with the malformed-encoding error
(`failed to decode base64: …`) exactly when base64 decoding of the
normalized, re-padded text fails, and with the malformed-document error
(`failed to parse CoSERV data`) when the bytes do not parse into a JSON
object; but an absent or empty profile is NOT rejected at decode time —
`FromCBOR` succeeds on any JSON object regardless of the profile, and
the empty profile is only rejected later by `GetProfile` (during key
generation). -/
theorem decode_error_taxonomy
    (b64decode : String → Except String (List Nat))
    (jsonParse : List Nat → Option coserv.Json)
    (c : coserv.CoSERV) (s : String) :
    (∀ e, b64decode (coserv.padBase64 (coserv.normalizeBase64 s)) = Except.error e →
      coserv.FromBase64Url b64decode jsonParse c s =
        Except.error ("failed to decode base64: " ++ e)) ∧
    (∀ bs, b64decode (coserv.padBase64 (coserv.normalizeBase64 s)) = Except.ok bs →
      coserv.FromBase64Url b64decode jsonParse c s = coserv.FromCBOR c (jsonParse bs)) ∧
    (coserv.FromCBOR c none = Except.error "failed to parse CoSERV data") ∧
    (∀ fields, ∃ r,
      coserv.FromCBOR c (some (coserv.Json.obj fields)) = Except.ok r) ∧
    (c.Profile = "" →
      coserv.GetProfile c = Except.error "profile not found in CoSERV query") := by
  refine ⟨?_, ?_, rfl, ?_, ?_⟩
  · intro e h
    simp [coserv.FromBase64Url, h]
  · intro bs h
    simp [coserv.FromBase64Url, h]
  · intro fields
    exact ⟨_, rfl⟩
  · intro h
    simp [coserv.GetProfile, h]

/-- Witness for C5's amended theorem: a base64 decoder failing with the
stdlib message makes the decode fail with the wrapped
malformed-encoding error. -/
theorem decode_error_taxonomy_witness :
    coserv.FromBase64Url (fun _ => Except.error "illegal base64 data at input byte 0")
        (fun _ => none) coserv.zeroCoSERV "!!" =
      Except.error ("failed to decode base64: " ++ "illegal base64 data at input byte 0") :=
  (decode_error_taxonomy (fun _ => Except.error "illegal base64 data at input byte 0")
    (fun _ => none) coserv.zeroCoSERV "!!").1 "illegal base64 data at input byte 0" rfl

/-- Success case of the reference-value key loop: when every class
selector's extraction succeeds, the loop yields one key per selector,
in order, each derived from the selector at the same index. -/
theorem genRefValKeys_ok (tenant : String) (cs : List store.Class) (i : Nat) :
    (∀ c ∈ cs, ∃ s, store.extractImplID c = Except.ok s) →
    ∃ keys, store.genRefValKeys tenant i cs = Except.ok keys ∧
      keys.length = cs.length ∧
      ∀ j (hj : j < cs.length), ∃ s,
        store.extractImplID (cs.get ⟨j, hj⟩) = Except.ok s ∧
        keys[j]? = some (store.RefValLookupKey store.SchemeName tenant s) := by
  induction cs generalizing i with
  | nil =>
      intro _
      exact ⟨[], rfl, rfl, fun j hj => absurd hj (Nat.not_lt_zero j)⟩
  | cons c rest ih =>
      intro h
      obtain ⟨s, hs⟩ := h c (List.mem_cons_self c rest)
      obtain ⟨keys, hk, hlen, hidx⟩ :=
        ih (i + 1) (fun c' hc' => h c' (List.mem_cons_of_mem c hc'))
      refine ⟨store.RefValLookupKey store.SchemeName tenant s :: keys, ?_,
        by simp [hlen], ?_⟩
      · simp [store.genRefValKeys, hs, hk]
      · intro j hj
        cases j with
        | zero => exact ⟨s, hs, by simp⟩
        | succ j' =>
            obtain ⟨s', hs', hkey⟩ := hidx j' (Nat.lt_of_succ_lt_succ hj)
            exact ⟨s', hs', by simpa using hkey⟩

/-- Failure case of the reference-value key loop: when every selector
before index `j` extracts and the one at `j` fails, the loop fails with
the index-carrying message (the running index starts at `i`). -/
theorem genRefValKeys_error (tenant : String) (cs : List store.Class) :
    ∀ i j (hj : j < cs.length) e,
    (∀ k (hk : k < j), ∃ s,
      store.extractImplID (cs.get ⟨k, Nat.lt_trans hk hj⟩) = Except.ok s) →
    store.extractImplID (cs.get ⟨j, hj⟩) = Except.error e →
    store.genRefValKeys tenant i cs =
      Except.error ("creating lookup key for class[" ++ toString (i + j) ++ "]: " ++ e) := by
  induction cs with
  | nil =>
      intro i j hj
      exact absurd hj (Nat.not_lt_zero j)
  | cons c rest ih =>
      intro i j hj e hpre hfail
      cases j with
      | zero =>
          have hfail' : store.extractImplID c = Except.error e := hfail
          simp [store.genRefValKeys, hfail']
      | succ j' =>
          obtain ⟨s, hs⟩ := hpre 0 (Nat.succ_pos j')
          have hs' : store.extractImplID c = Except.ok s := hs
          have hrec := ih (i + 1) j' (Nat.lt_of_succ_lt_succ hj) e
            (fun k hk => hpre (k + 1) (Nat.succ_lt_succ hk)) hfail
          have harith : i + 1 + j' = i + (j' + 1) := by omega
          rw [harith] at hrec
          simp [store.genRefValKeys, hs', hrec]

/-- C1: for every tenant and reference-values query whose class-selector
list has N entries, key synthesis (`GenerateKey` of `store/store.go`)
yields a key list of length N whose i-th key is derived — via
`extractImplID` and `RefValLookupKey` — from the i-th class selector in
request order; and if extraction fails at the first failing index i,
synthesis fails with the `creating lookup key for class[i]` error
carrying that index instead of skipping the entry. -/
theorem GenerateKey_selector_order (tenant : String) (q : store.Coserv)
    (cs : List store.Class)
    (hty : q.Query.ArtifactType = store.ArtifactType.referenceValues)
    (hcls : q.Query.EnvironmentSelector.Classes = some cs) :
    ((∀ c ∈ cs, ∃ s, store.extractImplID c = Except.ok s) →
      ∃ keys, store.GenerateKey tenant (Except.ok q) = Except.ok keys ∧
        keys.length = cs.length ∧
        ∀ j (hj : j < cs.length), ∃ s,
          store.extractImplID (cs.get ⟨j, hj⟩) = Except.ok s ∧
          keys[j]? = some (store.RefValLookupKey store.SchemeName tenant s)) ∧
    (∀ j (hj : j < cs.length) e,
      (∀ k (hk : k < j), ∃ s,
        store.extractImplID (cs.get ⟨k, Nat.lt_trans hk hj⟩) = Except.ok s) →
      store.extractImplID (cs.get ⟨j, hj⟩) = Except.error e →
      store.GenerateKey tenant (Except.ok q) =
        Except.error ("creating lookup key for class[" ++ toString j ++ "]: " ++ e)) := by
  have hgen : store.GenerateKey tenant (Except.ok q) = store.genRefValKeys tenant 0 cs := by
    simp [store.GenerateKey, store.GenerateKeyQ, hty, hcls]
  constructor
  · intro h
    rw [hgen]
    exact genRefValKeys_ok tenant cs 0 h
  · intro j hj e hpre hfail
    rw [hgen]
    simpa using genRefValKeys_error tenant cs 0 j hj e hpre hfail

/-- Witness for C1: a one-entry class list whose selector has no
class-id makes synthesis fail with the index-0 error. -/
theorem GenerateKey_selector_order_witness :
    store.GenerateKey "t0"
        (Except.ok
          { Profile := "P",
            Query := { ArtifactType := store.ArtifactType.referenceValues,
                       EnvironmentSelector :=
                         { Classes := some [{ ClassID := none }],
                           Instances := none } } }) =
      Except.error "creating lookup key for class[0]: missing class-id" := by
  have h := (GenerateKey_selector_order "t0"
    { Profile := "P",
      Query := { ArtifactType := store.ArtifactType.referenceValues,
                 EnvironmentSelector :=
                   { Classes := some [{ ClassID := none }],
                     Instances := none } } }
    [{ ClassID := none }] rfl rfl).2 0 (by decide) "missing class-id"
    (fun k hk => absurd hk (Nat.not_lt_zero k)) rfl
  simpa using h

/-- C3: for every store behavior, tenant and parsed query with artifact
type `EndorsedValues`, resolution fails with the unsupported
artifact-type error raised during key synthesis, whatever the
environment selector holds; the result is one constant error for EVERY
store function `get`, so no store fetch influences (or is needed for)
the outcome. -/
theorem GetEndorsements_endorsed_values
    (get : List String → Except String (List (List Nat)))
    (tenant : String) (q : store.Coserv)
    (hty : q.Query.ArtifactType = store.ArtifactType.endorsedValues) :
    store.GenerateKey tenant (Except.ok q) =
      Except.error "CCA does not implement endorsed value queries" ∧
    store.GetEndorsements get tenant (Except.ok q) =
      Except.error "failed to generate key: CCA does not implement endorsed value queries" := by
  have h1 : store.GenerateKey tenant (Except.ok q) =
      Except.error "CCA does not implement endorsed value queries" := by
    simp [store.GenerateKey, store.GenerateKeyQ, hty]
  refine ⟨h1, ?_⟩
  simp [store.GetEndorsements, store.GenerateKey, store.GenerateKeyQ, hty]

/-- Witness for C3: a concrete endorsed-values query fails resolution
even against a store holding artifacts for every key. -/
theorem GetEndorsements_endorsed_values_witness :
    store.GetEndorsements (fun _ => Except.ok [[1, 2]]) "t0"
        (Except.ok
          { Profile := "P",
            Query := { ArtifactType := store.ArtifactType.endorsedValues,
                       EnvironmentSelector := { Classes := none, Instances := none } } }) =
      Except.error "failed to generate key: CCA does not implement endorsed value queries" :=
  (GetEndorsements_endorsed_values (fun _ => Except.ok [[1, 2]]) "t0"
    { Profile := "P",
      Query := { ArtifactType := store.ArtifactType.endorsedValues,
                 EnvironmentSelector := { Classes := none, Instances := none } } } rfl).2

/-- A parsed reference-values query with profile `P` and an absent
(`nil`) class-selector list, so key synthesis yields the empty key
list. -/
def emptySelectorQuery : store.Coserv :=
  { Profile := "P",
    Query := { ArtifactType := store.ArtifactType.referenceValues,
               EnvironmentSelector := { Classes := none, Instances := none } } }

/-- The store `Get` against an empty `endorsements` table: every lookup
fails with the no-artifacts error (`store.Get [] k` for every key `k`;
the rendered key text is immaterial and elided because the resolver
passes its whole key list — not a key string — to the single `Get`
call). -/
def emptyStoreGet : List String → Except String (List (List Nat)) :=
  fun _ => Except.error "no artifacts found for key: "

/-- C2 counterexample: `emptySelectorQuery` synthesizes an EMPTY key
list, yet resolution does not return a zero-artifact result — the
resolver still issues its single store fetch and propagates the store's
no-artifacts error, refuting "resolution of a query whose synthesized
key list is empty returns a successfully encoded result … and no
error". -/
theorem GetEndorsements_emptyKeys_cex :
    store.GenerateKey "0" (Except.ok emptySelectorQuery) = Except.ok [] ∧
    store.GetEndorsements emptyStoreGet "0" (Except.ok emptySelectorQuery) =
      Except.error "failed to get artifacts: no artifacts found for key: " :=
  ⟨rfl, rfl⟩

/-- C2 amended: resolution issues exactly ONE store fetch whatever the
synthesized key count, passing the entire key list to the store's `Get`;
an empty key list is not special-cased.  Resolution fails — with the
store's no-artifacts error in particular — exactly when that single
fetch fails, and otherwise succeeds with the fetched artifacts (given
the query's non-empty profile). -/
theorem GetEndorsements_single_fetch
    (get : List String → Except String (List (List Nat)))
    (tenant : String) (q : store.Coserv) (keys : List String)
    (hk : store.GenerateKey tenant (Except.ok q) = Except.ok keys) :
    (∀ e, get keys = Except.error e →
      store.GetEndorsements get tenant (Except.ok q) =
        Except.error ("failed to get artifacts: " ++ e)) ∧
    (∀ arts, get keys = Except.ok arts → q.Profile ≠ "" →
      store.GetEndorsements get tenant (Except.ok q) =
        Except.ok (store.CreateResult q.Profile q.Query.ArtifactType arts)) := by
  constructor
  · intro e he
    simp [store.GetEndorsements, hk, he]
  · intro arts ha hp
    simp [store.GetEndorsements, hk, ha, store.GetProfile, hp]

/-- Witness for C2's amended theorem: the empty-key-list query against
a store answering with one artifact resolves to that artifact list. -/
theorem GetEndorsements_single_fetch_witness :
    store.GetEndorsements (fun _ => Except.ok [[7]]) "0" (Except.ok emptySelectorQuery) =
      Except.ok (store.CreateResult "P" store.ArtifactType.referenceValues [[7]]) :=
  (GetEndorsements_single_fetch (fun _ => Except.ok [[7]]) "0" emptySelectorQuery []
    rfl).2 [[7]] rfl (by decide)

/-- C7: evaluating the store at the claimed round-trip shows it broken:
after `Set "k" [[0xAB]]` (which stores the hex text `ab`, per
`encodeArtifact`), `Get "k"` returns the ASCII bytes `[0x61, 0x62]` of
that hex text (per `decodeArtifact`, which returns the stored string's
raw bytes instead of hex-decoding it, contradicting its own comment) —
not the original `[0xAB]`. -/
theorem store_set_get_cex :
    store.Get (store.Set [] "k" [[171]]) "k" = Except.ok [[97, 98]] ∧
    ([[97, 98]] : List (List Nat)) ≠ [[171]] := by
  exact ⟨rfl, by decide⟩

/-- If `errors.Is` relates an error chain to a target built by
`errors.New`, the target's allocation identity occurs in the chain. -/
theorem errorsIs_new_mem (e : api.GoError) (i : Nat) (m : String)
    (h : api.errorsIs e (api.GoError.new i m) = true) : i ∈ e.ids := by
  induction e with
  | new id msg =>
      simp only [api.errorsIs, beq_iff_eq, api.GoError.new.injEq] at h
      simp [api.GoError.ids, h.1]
  | wrap id msg inner ih =>
      simp only [api.errorsIs, Bool.or_eq_true, beq_iff_eq] at h
      rcases h with h | h
      · exact absurd h (by simp)
      · simp [api.GoError.ids, ih h]

/-- C6 (evaluating the code against the claim): for EVERY resolution
error — the no-artifacts one included — `CoservRequest` responds with
status 400, never 404, because the handler compares the error against a
freshly allocated `errors.New("no artifacts found")` value, which
`errors.Is` can never match (`freshID` differs from every allocation
identity inside `err`).  The 404 branch is dead code, contradicting
both the claim and the branch's evident intent. -/
theorem CoservRequest_always_400 (err : api.GoError) (freshID : Nat)
    (accept q : String) (hq : q ≠ "") (hfresh : freshID ∉ err.ids) :
    (api.CoservRequest true accept q (fun _ _ _ => Except.error err) freshID).status
      = 400 := by
  have hIs : api.errorsIs err (api.GoError.new freshID "no artifacts found") = false := by
    cases hcase : api.errorsIs err (api.GoError.new freshID "no artifacts found") with
    | false => rfl
    | true => exact absurd (errorsIs_new_mem err freshID _ hcase) hfresh
  simp [api.CoservRequest, api.coservRequestStatus, hq, hIs]

/-- Witness for C6: the concrete error chain of a no-artifacts failure
(`failed to get artifacts: no artifacts found for key: k`) is answered
with status 400. -/
theorem CoservRequest_always_400_witness :
    (api.CoservRequest true "application/coserv+cbor" "abc"
        (fun _ _ _ => Except.error (api.GoError.wrap 1 "failed to get artifacts"
          (api.GoError.new 0 "no artifacts found for key: k"))) 2).status = 400 :=
  CoservRequest_always_400
    (api.GoError.wrap 1 "failed to get artifacts"
      (api.GoError.new 0 "no artifacts found for key: k"))
    2 "application/coserv+cbor" "abc" (by decide) (by decide)

/-- C9 (evaluating the code against the claim): for a successful
request whose Accept header carries a profile parameter, the handler
COMPUTES the echoing media type (first conjunct: `computeMediaType`
reproduces the header verbatim) but serves the response body with the
constant `application/coserv+cbor` (second conjunct), which differs
from the echoing media type (third conjunct) — the computed value is
passed to the distributor and logged, never used for the response. -/
theorem CoservRequest_contentType_cex :
    api.computeMediaType
        "application/coserv+cbor; profile=\"tag:arm.com,2023:cca_platform#1.0.0\"" =
      "application/coserv+cbor; profile=\"tag:arm.com,2023:cca_platform#1.0.0\"" ∧
    (api.CoservRequest true
        "application/coserv+cbor; profile=\"tag:arm.com,2023:cca_platform#1.0.0\""
        "abc" (fun _ _ _ => Except.ok [1]) 0).contentType = "application/coserv+cbor" ∧
    "application/coserv+cbor" ≠
      "application/coserv+cbor; profile=\"tag:arm.com,2023:cca_platform#1.0.0\"" := by
  exact ⟨rfl, rfl, by decide⟩

end EndorsementDistribution
